import Mathlib

/-!
Verification of the MediQuest-AI patient module's image pipeline.

Shallow embedding of the repository's TypeScript source:
  * `src/types.ts` — data model (`BoundingBox`, `MedicalFinding`, uploaded-file records)
  * `src/components/ImageAnnotator.tsx` — `visualFindings` filter and `getHeatmapStyle`
  * `src/components/UploadReport.tsx` — `downloadAnnotatedImage` export geometry
  * `src/services/geminiService.ts` — `processMedicalImage`, `analyzeMedicalDocument`
  * `src/services/firebaseService.ts` — `addPatientReport` size-stripping
  * `src/App.tsx` — `handleFileUpload` pipeline orchestration

JavaScript numbers are modelled as `ℚ` (the geometry involved is exact rational
arithmetic), JavaScript strings as `String`, possibly-`undefined` values as
`Option`, and JSON values as an inductive `Json` type.
-/

namespace MediQuest

/-- A JSON value, as produced by `JSON.parse` on the external model's response.
`JSON.parse` never yields `undefined`; absence of an object field is modelled
by `Json.getField` returning `none`. -/
inductive Json where
  | null
  | bool (b : Bool)
  | num (q : ℚ)
  | str (s : String)
  | arr (elems : List Json)
  | obj (fields : List (String × Json))

/-- JavaScript property access `j.name` on a parsed JSON value: `some v` when
the field is present, `none` (JS `undefined`) otherwise. Non-objects have no
named fields of interest here. -/
def Json.getField : Json → String → Option Json
  | .obj fields, name => fields.lookup name
  | _, _ => none

/-- `Array.isArray` on a JSON value. -/
def Json.isArray : Json → Bool
  | .arr _ => true
  | _ => false

/-- `types.ts` — `BoundingBox`: normalized 0–1 coordinates. -/
structure BoundingBox where
  ymin : ℚ
  xmin : ℚ
  ymax : ℚ
  xmax : ℚ
deriving DecidableEq

/-- `types.ts` — `MedicalFinding`; `box_2d` is optional. -/
structure MedicalFinding where
  label : String
  confidence : String
  box_2d : Option BoundingBox
  explanation : String
deriving DecidableEq

/-! ## JavaScript string helpers

`String.prototype.includes` is substring containment; modelled on the
character lists underlying Lean strings. -/

/-- `pat` is a leading segment of `s` (character-by-character). -/
def charsLeadWith : List Char → List Char → Bool
  | [], _ => true
  | _ :: _, [] => false
  | a :: pa, b :: pb => (a == b) && charsLeadWith pa pb

/-- `pat` occurs as a contiguous segment somewhere in `s`. -/
def charsContain (pat : List Char) : List Char → Bool
  | [] => pat.isEmpty
  | b :: bs => charsLeadWith pat (b :: bs) || charsContain pat bs

/-- JavaScript `s.includes(pat)`. -/
def jsIncludes (s pat : String) : Bool :=
  charsContain pat.data s.data

/-- JavaScript `s.toLowerCase()` (character-wise lowering; the inputs of
interest are ASCII). -/
def jsToLower (s : String) : String :=
  String.mk (s.data.map Char.toLower)

/-! ## `ImageAnnotator.tsx` — heatmap band classification -/

/-- The gradient string returned for high confidence (band A in the spec). -/
def bandA : String :=
  "radial-gradient(circle at center, rgba(220, 38, 38, 1) 0%, rgba(220, 38, 38, 0.6) 45%, transparent 85%)"

/-- The gradient string returned for medium confidence (band B in the spec). -/
def bandB : String :=
  "radial-gradient(circle at center, rgba(234, 88, 12, 0.9) 0%, rgba(234, 88, 12, 0.5) 45%, transparent 85%)"

/-- The gradient string returned for low/unknown confidence (band C in the spec). -/
def bandC : String :=
  "radial-gradient(circle at center, rgba(202, 138, 4, 0.8) 0%, rgba(202, 138, 4, 0.4) 45%, transparent 85%)"

/-- `ImageAnnotator.tsx` lines 21–33, `getHeatmapStyle`. The runtime value of
`confidence` may be `undefined` (the source guards with `confidence?.`), hence
`Option String`. `const c = confidence?.toLowerCase() || ''` then two
`includes` checks. -/
def getHeatmapStyle (confidence : Option String) : String :=
  let c := (confidence.map jsToLower).getD ""
  if jsIncludes c "high" then bandA
  else if jsIncludes c "medium" then bandB
  else bandC

/-! ## `geminiService.ts` — analysis stage -/

/-- The runtime shape of the value returned by `analyzeMedicalDocument`
(`AnalysisResult` in `types.ts`). The TypeScript cast `as AnalysisResult`
performs no conversion, so `summary`/`disclaimer` are whatever JSON values the
external response carried (possibly absent, i.e. `none`), while `findings` is
guaranteed to be an array by the explicit `Array.isArray` coercion. -/
structure RawAnalysisResult where
  summary : Option Json
  findings : List Json
  disclaimer : Option Json

/-- `geminiService.ts` lines 127–131: the `defaultError` report, returned when
the client is missing or the response has no text. -/
def defaultError : RawAnalysisResult :=
  { summary := some (.str "Analysis failed.")
    findings := []
    disclaimer := some (.str "System Error.") }

/-- `geminiService.ts` lines 196–200: the report returned from the `catch`
block of `analyzeMedicalDocument`. -/
def analysisCatchFallback : RawAnalysisResult :=
  { summary := some (.str "Could not process image.")
    findings := []
    disclaimer := some (.str "Error occurred during analysis.") }

/-- Possible behaviours of the external analysis call, as observed by
`analyzeMedicalDocument`: the awaited call rejects (`throw`); it resolves but
`response.text` is falsy (`noText`); the text is present but `JSON.parse`
throws (`malformed`); or the text parses to a JSON value (`parsed j`). -/
inductive AnalysisCallResult where
  | throw
  | noText
  | malformed
  | parsed (j : Json)

/-- `geminiService.ts` lines 122–202, `analyzeMedicalDocument`. Total: every
path returns a report. When the parsed value is JSON `null`, the property
access `parsed.findings` throws a TypeError inside the `try`, landing in the
`catch` fallback. Otherwise `findings` is coerced with
`Array.isArray(parsed.findings) ? parsed.findings : []`. -/
def analyzeMedicalDocument (hasApiKey : Bool) (call : AnalysisCallResult) :
    RawAnalysisResult :=
  if !hasApiKey then defaultError
  else
    match call with
    | .throw => analysisCatchFallback
    | .noText => defaultError
    | .malformed => analysisCatchFallback
    | .parsed .null => analysisCatchFallback
    | .parsed j =>
        { summary := j.getField "summary"
          findings :=
            match j.getField "findings" with
            | some (.arr xs) => xs
            | _ => []
          disclaimer := j.getField "disclaimer" }

/-! ## `geminiService.ts` — enhancement stage -/

/-- One entry of `response.candidates?.[0]?.content?.parts || []`; only the
presence and payload of `inlineData` matter to the source loop. -/
structure ResponsePart where
  inlineData : Option String

/-- Possible behaviours of the external image-generation call in
`processMedicalImage`: the awaited call rejects, or it resolves with a list of
parts (empty when any of `candidates/content/parts` is missing). -/
inductive EnhanceCallResult where
  | throw
  | response (parts : List ResponsePart)

/-- `geminiService.ts` lines 105–109: the `for` loop returning the first
part's `inlineData.data`, if any. -/
def firstInlineData : List ResponsePart → Option String
  | [] => none
  | p :: rest =>
    match p.inlineData with
    | some d => some d
    | none => firstInlineData rest

/-- `geminiService.ts` lines 79–116, `processMedicalImage`. Total: returns
`none` when the API key is missing, the call throws, or no part carries
`inlineData`. -/
def processMedicalImage (hasApiKey : Bool) (call : EnhanceCallResult) :
    Option String :=
  if !hasApiKey then none
  else
    match call with
    | .throw => none
    | .response parts => firstInlineData parts

/-! ## `types.ts` — `UploadedFile`, and `firebaseService.ts` persistence -/

/-- `types.ts` — `UploadedFile`; `previewUrl`, `processedUrl` and
`analysisResult` are optional. -/
structure UploadedFile where
  id : String
  name : String
  type : String
  date : String
  previewUrl : Option String
  processedUrl : Option String
  analysisResult : Option RawAnalysisResult

/-- JavaScript `url?.length || 0` on an optional string. -/
def jsOptLength : Option String → Nat
  | some s => s.length
  | none => 0

/-- `firebaseService.ts` lines 88–95 of `addPatientReport`: the `safeFile`
actually written to the store. The check is
`(safeFile.previewUrl?.length || 0) > 800000`; when it fires, both
`previewUrl` and `processedUrl` are assigned the empty string. -/
def addPatientReportStored (file : UploadedFile) : UploadedFile :=
  if 800000 < jsOptLength file.previewUrl then
    { file with previewUrl := some "", processedUrl := some "" }
  else
    file

/-! ## `App.tsx` — `handleFileUpload` pipeline orchestration -/

/-- JavaScript `s.startsWith(pat)`. -/
def jsStartsWith (s pat : String) : Bool :=
  charsLeadWith pat.data s.data

/-- Split a character list at every occurrence of `sep` (JS
`s.split(sep)` for a one-character separator). -/
def splitOnChar (sep : Char) : List Char → List (List Char)
  | [] => [[]]
  | c :: cs =>
    let rest := splitOnChar sep cs
    if c == sep then [] :: rest
    else
      match rest with
      | [] => [[c]]
      | r :: rs => (c :: r) :: rs

/-- JavaScript `s.split(',')`. -/
def jsSplitComma (s : String) : List String :=
  (splitOnChar ',' s.data).map String.mk

/-- The observable outcome of one run of the `reader.onloadend` callback of
`handleFileUpload` (`App.tsx` lines 98–154). `crashed` records that the
callback terminated with an uncaught exception (so the `finally` cleanup never
ran). `analysisInput` is `some bytes` exactly when `analyzeMedicalDocument`
was invoked, carrying the `base64` payload it received (itself an `Option`
because `split(',')[1]` can be JS `undefined`). -/
structure PipelineResult where
  isUploading : Bool
  processingStatus : String
  crashed : Bool
  enhanceInvoked : Bool
  analysisInput : Option (Option String)
  record : Option UploadedFile
  persisted : Option UploadedFile

/-- `App.tsx` lines 98–154, `handleFileUpload`, modelled from the point where
`setIsUploading(true)` and `setProcessingStatus('Uploading...')` have already
run and the `FileReader` has fired `onloadend`.

* `readerResult` — `reader.result`: the data URL, or `none` after a failed
  read (`loadend` fires after `error` with `result === null`). In that case
  `base64DataUrl.split(',')` throws a TypeError *before* the `try` block, so
  the `catch`/`finally` never run and the pre-read state survives.
* `nowId`/`nowDate` — the runtime clock values `Date.now().toString()` and
  `new Date().toISOString()`.
* `persistResolves` — whether the awaited `addPatientReport` write resolves;
  when it rejects, the `catch` swallows the error and `finally` still runs. -/
def handleFileUpload
    (readerResult : Option String)
    (fileName fileType : String)
    (nowId nowDate : String)
    (hasApiKey : Bool)
    (enhanceCall : EnhanceCallResult)
    (analysisCall : AnalysisCallResult)
    (isFirebaseConnected : Bool)
    (persistResolves : Bool) : PipelineResult :=
  match readerResult with
  | none =>
      { isUploading := true
        processingStatus := "Uploading..."
        crashed := true
        enhanceInvoked := false
        analysisInput := none
        record := none
        persisted := none }
  | some base64DataUrl =>
      let base64String : Option String := (jsSplitComma base64DataUrl).get? 1
      let isImage := jsStartsWith fileType "image/"
      let processedImageBase64 : Option String :=
        if isImage then processMedicalImage hasApiKey enhanceCall else none
      let finalImageBase64 : Option String :=
        match processedImageBase64 with
        | some p => some p
        | none => base64String
      let analysisResult := analyzeMedicalDocument hasApiKey analysisCall
      let newFile : UploadedFile :=
        { id := nowId
          name := fileName
          type := fileType
          date := nowDate
          previewUrl := some base64DataUrl
          processedUrl := processedImageBase64.map
            (fun p => "data:image/png;base64," ++ p)
          analysisResult := some analysisResult }
      let persisted : Option UploadedFile :=
        if isFirebaseConnected then
          if persistResolves then some (addPatientReportStored newFile) else none
        else
          some newFile
      { isUploading := false
        processingStatus := ""
        crashed := false
        enhanceInvoked := isImage
        analysisInput := some finalImageBase64
        record := some newFile
        persisted := persisted }

/-! ## `ImageAnnotator.tsx` — spatial rendering of findings -/

/-- The three mutually exclusive view modes of `ImageAnnotator.tsx`. -/
inductive ViewMode where
  | box
  | heatmap
  | combined
deriving DecidableEq

/-- `ImageAnnotator.tsx` line 17:
`const visualFindings = (findings || []).filter(f => f.box_2d)`.
The parameter is optional because the source defends against an
undefined/null prop. -/
def visualFindings (findings : Option (List MedicalFinding)) :
    List MedicalFinding :=
  (findings.getD []).filter (fun f => f.box_2d.isSome)

/-- Whether the heatmap layer (lines 97–120) emits a spatial element for index
`i` of `visualFindings`: the layer is mounted only in `heatmap`/`combined`
mode, and the inner guard `if (!finding.box_2d) return null` skips boxless
entries. -/
def heatmapLayerRenders (mode : ViewMode) (findings : Option (List MedicalFinding))
    (i : ℕ) : Bool :=
  (mode == .heatmap || mode == .combined) &&
    (match (visualFindings findings).get? i with
     | some f => f.box_2d.isSome
     | none => false)

/-- Whether the bounding-box layer (lines 123–180) emits a spatial element for
index `i` of `visualFindings`: mounted only in `box`/`combined` mode, same
inner guard. -/
def boxLayerRenders (mode : ViewMode) (findings : Option (List MedicalFinding))
    (i : ℕ) : Bool :=
  (mode == .box || mode == .combined) &&
    (match (visualFindings findings).get? i with
     | some f => f.box_2d.isSome
     | none => false)

/-- The number of distinct findings given a spatial element (heatmap blob or
box outline) in the given view mode. -/
def spatiallyRenderedCount (mode : ViewMode)
    (findings : Option (List MedicalFinding)) : ℕ :=
  ((List.range (visualFindings findings).length).filter
    (fun i => heatmapLayerRenders mode findings i || boxLayerRenders mode findings i)).length

/-! ## `UploadReport.tsx` — export renderer geometry -/

/-- A rectangle stroked on the export canvas, in pixels of the native image
resolution. -/
structure RenderedRect where
  x : ℚ
  y : ℚ
  w : ℚ
  h : ℚ
deriving DecidableEq

/-- `UploadReport.tsx` lines 43–65: the `findings.forEach` loop of
`downloadAnnotatedImage`, collecting the rectangle stroked for each finding
that has a `box_2d`. `imgWidth`/`imgHeight` are the native dimensions
(`canvas.width = img.width`, `canvas.height = img.height`). -/
def drawAnnotations (imgWidth imgHeight : ℚ) :
    List MedicalFinding → List RenderedRect
  | [] => []
  | f :: rest =>
    match f.box_2d with
    | some b =>
        { x := b.xmin * imgWidth
          y := b.ymin * imgHeight
          w := (b.xmax - b.xmin) * imgWidth
          h := (b.ymax - b.ymin) * imgHeight } ::
          drawAnnotations imgWidth imgHeight rest
    | none => drawAnnotations imgWidth imgHeight rest

/-- `UploadReport.tsx` line 42: `const findings = file.analysisResult?.findings || []`
feeding the drawing loop. -/
def downloadAnnotatedImage (findings : Option (List MedicalFinding))
    (imgWidth imgHeight : ℚ) : List RenderedRect :=
  drawAnnotations imgWidth imgHeight (findings.getD [])

/-- `Array.isArray(parsed.findings)`-style test: the JSON object `j` has a
field `name` whose value is an array (missing field, JS `undefined`, is not an
array). -/
def Json.isArrayField (j : Json) (name : String) : Bool :=
  match j.getField name with
  | some v => v.isArray
  | none => false

/-! ## Theorems -/

/-- Claim C1: for every external analysis response whose `findings` field is
null, missing, or not a sequence, the report returned by
`analyzeMedicalDocument` has `findings = []` — the function is total (never
throws), so downstream rendering never faces an undefined/null collection. -/
theorem analyze_coerces_findings_to_empty (hasApiKey : Bool) (j : Json)
    (h : j.isArrayField "findings" = false) :
    (analyzeMedicalDocument hasApiKey (.parsed j)).findings = [] := by
  cases hasApiKey with
  | false => rfl
  | true =>
    cases j with
    | null => rfl
    | bool b => rfl
    | num q => rfl
    | str s => rfl
    | arr xs => rfl
    | obj fields =>
      show (match Json.getField (.obj fields) "findings" with
            | some (.arr xs) => xs
            | _ => []) = []
      rcases hfind : Json.getField (.obj fields) "findings" with _ | v
      · rfl
      · cases v <;> simp_all [Json.isArrayField, Json.isArray]

/-- Witness for C1 at a response whose `findings` field is JSON `null`. -/
theorem analyze_coerces_findings_to_empty_witness :
    Json.isArrayField (.obj [("findings", Json.null)]) "findings" = false
    ∧ (analyzeMedicalDocument true (.parsed (.obj [("findings", Json.null)]))).findings = [] :=
  ⟨by decide, analyze_coerces_findings_to_empty true (.obj [("findings", Json.null)]) (by decide)⟩

/-- Claim C2: `getHeatmapStyle` is a pure total function of the confidence
string: any string containing `"high"` case-insensitively yields band A,
otherwise containing `"medium"` yields band B, and anything else (including
the empty or missing string) yields band C; in particular `"High"`,
`"HIGH risk"`, `"medium"`, `""`, `"Low"`, `"unexpected"` classify as
A, A, B, C, C, C. -/
theorem heatmap_band_classification :
    (∀ s : Option String,
        (jsIncludes ((s.map jsToLower).getD "") "high" = true →
          getHeatmapStyle s = bandA)
        ∧ (jsIncludes ((s.map jsToLower).getD "") "high" = false →
            jsIncludes ((s.map jsToLower).getD "") "medium" = true →
              getHeatmapStyle s = bandB)
        ∧ (jsIncludes ((s.map jsToLower).getD "") "high" = false →
            jsIncludes ((s.map jsToLower).getD "") "medium" = false →
              getHeatmapStyle s = bandC))
    ∧ getHeatmapStyle (some "High") = bandA
    ∧ getHeatmapStyle (some "HIGH risk") = bandA
    ∧ getHeatmapStyle (some "medium") = bandB
    ∧ getHeatmapStyle (some "") = bandC
    ∧ getHeatmapStyle none = bandC
    ∧ getHeatmapStyle (some "Low") = bandC
    ∧ getHeatmapStyle (some "unexpected") = bandC := by
  refine ⟨fun s => ⟨fun h1 => ?_, fun h1 h2 => ?_, fun h1 h2 => ?_⟩,
    by decide, by decide, by decide, by decide, by decide, by decide, by decide⟩
  · simp [getHeatmapStyle, h1]
  · simp [getHeatmapStyle, h1, h2]
  · simp [getHeatmapStyle, h1, h2]

/-- Witness for C2, applying the band-A case at `"HIGH risk"`. -/
theorem heatmap_band_classification_witness :
    getHeatmapStyle (some "HIGH risk") = bandA :=
  (heatmap_band_classification.1 (some "HIGH risk")).1 (by decide)

/-- Claim C10: for every confidence string containing both `"high"` and
`"medium"` case-insensitively (e.g. `"medium-high"`), `getHeatmapStyle`
assigns band A: the `"high"` check takes precedence over the `"medium"`
check. -/
theorem heatmap_high_precedes_medium (s : String)
    (hhigh : jsIncludes (jsToLower s) "high" = true)
    (_hmed : jsIncludes (jsToLower s) "medium" = true) :
    getHeatmapStyle (some s) = bandA := by
  simp [getHeatmapStyle, hhigh]

/-- Witness for C10 at `"medium-high"`. -/
theorem heatmap_high_precedes_medium_witness :
    getHeatmapStyle (some "medium-high") = bandA :=
  heatmap_high_precedes_medium "medium-high" (by decide) (by decide)

/-- Claim C3: for every finding with a box, `downloadAnnotatedImage` strokes
the rectangle `x = xmin·width`, `y = ymin·height`, `w = (xmax−xmin)·width`,
`h = (ymax−ymin)·height` in native image pixels; in particular the box
`{ymin 0.1, xmin 0.1, ymax 0.3, xmax 0.4}` on a 1000×800 image yields
top-left `(100, 80)` and size `(300, 160)`. -/
theorem export_rectangle_geometry :
    (∀ (fs : List MedicalFinding) (W H : ℚ),
        downloadAnnotatedImage (some fs) W H =
          (fs.filterMap (fun f => f.box_2d)).map
            (fun b =>
              { x := b.xmin * W, y := b.ymin * H,
                w := (b.xmax - b.xmin) * W, h := (b.ymax - b.ymin) * H }))
    ∧ downloadAnnotatedImage
        (some [{ label := "Possible Nodule", confidence := "High",
                 box_2d := some { ymin := 1/10, xmin := 1/10, ymax := 3/10, xmax := 4/10 },
                 explanation := "" }])
        1000 800 = [{ x := 100, y := 80, w := 300, h := 160 }] := by
  constructor
  · intro fs W H
    induction fs with
    | nil => rfl
    | cons f rest ih =>
      have ih' : drawAnnotations W H rest =
          (rest.filterMap (fun f => f.box_2d)).map
            (fun b =>
              { x := b.xmin * W, y := b.ymin * H,
                w := (b.xmax - b.xmin) * W, h := (b.ymax - b.ymin) * H }) := ih
      show drawAnnotations W H (f :: rest) =
          ((f :: rest).filterMap (fun f => f.box_2d)).map
            (fun b =>
              { x := b.xmin * W, y := b.ymin * H,
                w := (b.xmax - b.xmin) * W, h := (b.ymax - b.ymin) * H })
      cases hb : f.box_2d with
      | none => simp [drawAnnotations, hb, List.filterMap_cons, ih']
      | some b => simp [drawAnnotations, hb, List.filterMap_cons, ih']
  · norm_num [downloadAnnotatedImage, drawAnnotations]

/-- Claim C4: whenever the external analysis call throws, or its response is
malformed/unparseable, `analyzeMedicalDocument` returns (it is total, so it
never throws) the fixed fallback report with empty findings and the fixed
summary and disclaimer strings; and end-to-end, with the analysis capability
throwing, the pipeline still terminates (`finally` ran, no crash) and the
persisted record carries that fallback report. -/
theorem analysis_failure_yields_fallback_and_terminal_state
    (call : AnalysisCallResult) (hfail : call = .throw ∨ call = .malformed)
    (url fileName fileType nowId nowDate : String)
    (enhanceCall : EnhanceCallResult) (isFirebaseConnected : Bool) :
    analyzeMedicalDocument true call = analysisCatchFallback
    ∧ analysisCatchFallback.findings = []
    ∧ analysisCatchFallback.summary = some (.str "Could not process image.")
    ∧ analysisCatchFallback.disclaimer = some (.str "Error occurred during analysis.")
    ∧ (handleFileUpload (some url) fileName fileType nowId nowDate true
        enhanceCall call isFirebaseConnected true).crashed = false
    ∧ (handleFileUpload (some url) fileName fileType nowId nowDate true
        enhanceCall call isFirebaseConnected true).isUploading = false
    ∧ (handleFileUpload (some url) fileName fileType nowId nowDate true
        enhanceCall call isFirebaseConnected true).processingStatus = ""
    ∧ (handleFileUpload (some url) fileName fileType nowId nowDate true
        enhanceCall call isFirebaseConnected true).persisted.isSome = true
    ∧ (handleFileUpload (some url) fileName fileType nowId nowDate true
        enhanceCall call isFirebaseConnected true).record.map
        (fun rec => rec.analysisResult) = some (some analysisCatchFallback)
    ∧ analyzeMedicalDocument true .noText = defaultError
    ∧ defaultError.findings = []
    ∧ defaultError.summary = some (.str "Analysis failed.")
    ∧ defaultError.disclaimer = some (.str "System Error.") := by
  have hana : analyzeMedicalDocument true call = analysisCatchFallback := by
    rcases hfail with h | h <;> subst h <;> rfl
  refine ⟨hana, rfl, rfl, rfl, rfl, rfl, rfl, ?_, ?_, rfl, rfl, rfl, rfl⟩
  · cases isFirebaseConnected <;> simp [handleFileUpload]
  · simp [handleFileUpload, hana]

/-- Witness for C4: the analysis call throws on a concrete PNG upload. -/
theorem analysis_failure_yields_fallback_and_terminal_state_witness :
    analyzeMedicalDocument true .throw = analysisCatchFallback
    ∧ (handleFileUpload (some "data:image/png;base64,AAAA") "scan.png" "image/png"
        "1" "2026-10-11T00:00:00.000Z" true (.response []) .throw true true).isUploading = false
    ∧ (handleFileUpload (some "data:image/png;base64,AAAA") "scan.png" "image/png"
        "1" "2026-10-11T00:00:00.000Z" true (.response []) .throw true true).persisted.isSome = true :=
  ⟨(analysis_failure_yields_fallback_and_terminal_state .throw (Or.inl rfl)
      "data:image/png;base64,AAAA" "scan.png" "image/png" "1" "2026-10-11T00:00:00.000Z"
      (.response []) true).1,
   (analysis_failure_yields_fallback_and_terminal_state .throw (Or.inl rfl)
      "data:image/png;base64,AAAA" "scan.png" "image/png" "1" "2026-10-11T00:00:00.000Z"
      (.response []) true).2.2.2.2.2.1,
   (analysis_failure_yields_fallback_and_terminal_state .throw (Or.inl rfl)
      "data:image/png;base64,AAAA" "scan.png" "image/png" "1" "2026-10-11T00:00:00.000Z"
      (.response []) true).2.2.2.2.2.2.2.1⟩

/-- Claim C5 (code bug): a failed read of the uploaded bytes leaves the
pipeline permanently in progress. `reader.result` is `null` after a read
error, and `base64DataUrl.split(',')` then throws a TypeError *before* the
`try` block of the `onloadend` callback, so the `finally` cleanup never runs:
`isUploading` stays `true` and the status stays `"Uploading..."` — contradicting
the claim (and the spec's stated intent) that every stage failure, including
input-read failure, ends with `isUploading = false` and a cleared status. -/
theorem read_failure_leaves_pipeline_in_progress :
    (handleFileUpload none "scan.png" "image/png" "1" "2026-10-11T00:00:00.000Z"
      true (.response []) (.parsed .null) true true).isUploading = true
    ∧ (handleFileUpload none "scan.png" "image/png" "1" "2026-10-11T00:00:00.000Z"
        true (.response []) (.parsed .null) true true).processingStatus = "Uploading..."
    ∧ (handleFileUpload none "scan.png" "image/png" "1" "2026-10-11T00:00:00.000Z"
        true (.response []) (.parsed .null) true true).crashed = true
    ∧ (handleFileUpload none "scan.png" "image/png" "1" "2026-10-11T00:00:00.000Z"
        true (.response []) (.parsed .null) true true).persisted = none :=
  ⟨rfl, rfl, rfl, rfl⟩

/-- Claim C6: for every image upload where the enhancement stage produces no
result (missing key, rejected call, or no inline data in the response),
nothing escapes to the orchestrator (`crashed = false`), the resulting record
carries no enhanced reference (`processedUrl = none`), and the analysis stage
receives the original `base64` payload of the uploaded data URL. -/
theorem enhancement_failure_degrades_to_original_bytes
    (url fileName fileType nowId nowDate : String) (hasApiKey : Bool)
    (enhanceCall : EnhanceCallResult) (analysisCall : AnalysisCallResult)
    (isFirebaseConnected persistResolves : Bool)
    (himg : jsStartsWith fileType "image/" = true)
    (hfail : processMedicalImage hasApiKey enhanceCall = none) :
    (handleFileUpload (some url) fileName fileType nowId nowDate hasApiKey
      enhanceCall analysisCall isFirebaseConnected persistResolves).crashed = false
    ∧ (handleFileUpload (some url) fileName fileType nowId nowDate hasApiKey
        enhanceCall analysisCall isFirebaseConnected persistResolves).record.map
        (fun rec => rec.processedUrl) = some none
    ∧ (handleFileUpload (some url) fileName fileType nowId nowDate hasApiKey
        enhanceCall analysisCall isFirebaseConnected persistResolves).analysisInput =
        some ((jsSplitComma url).get? 1) := by
  refine ⟨rfl, ?_, ?_⟩ <;> simp [handleFileUpload, himg, hfail]

/-- Witness for C6: PNG upload, enhancement call rejects. -/
theorem enhancement_failure_degrades_to_original_bytes_witness :
    (handleFileUpload (some "data:image/png;base64,AAAA") "scan.png" "image/png"
      "1" "2026-10-11T00:00:00.000Z" true .throw (.parsed .null) false true).record.map
      (fun rec => rec.processedUrl) = some none
    ∧ (handleFileUpload (some "data:image/png;base64,AAAA") "scan.png" "image/png"
        "1" "2026-10-11T00:00:00.000Z" true .throw (.parsed .null) false true).analysisInput =
        some ((jsSplitComma "data:image/png;base64,AAAA").get? 1) :=
  ⟨(enhancement_failure_degrades_to_original_bytes "data:image/png;base64,AAAA"
      "scan.png" "image/png" "1" "2026-10-11T00:00:00.000Z" true .throw (.parsed .null)
      false true (by decide) rfl).2.1,
   (enhancement_failure_degrades_to_original_bytes "data:image/png;base64,AAAA"
      "scan.png" "image/png" "1" "2026-10-11T00:00:00.000Z" true .throw (.parsed .null)
      false true (by decide) rfl).2.2⟩

/-- Claim C7: for every uploaded file whose mime type is not an image type
(e.g. a PDF), the orchestrator never invokes the enhancement stage, the
analysis stage runs against the original `base64` payload, and the resulting
record has no enhanced reference (`processedUrl = none`). -/
theorem non_image_skips_enhancement
    (url fileName fileType nowId nowDate : String) (hasApiKey : Bool)
    (enhanceCall : EnhanceCallResult) (analysisCall : AnalysisCallResult)
    (isFirebaseConnected persistResolves : Bool)
    (hmime : jsStartsWith fileType "image/" = false) :
    (handleFileUpload (some url) fileName fileType nowId nowDate hasApiKey
      enhanceCall analysisCall isFirebaseConnected persistResolves).enhanceInvoked = false
    ∧ (handleFileUpload (some url) fileName fileType nowId nowDate hasApiKey
        enhanceCall analysisCall isFirebaseConnected persistResolves).analysisInput =
        some ((jsSplitComma url).get? 1)
    ∧ (handleFileUpload (some url) fileName fileType nowId nowDate hasApiKey
        enhanceCall analysisCall isFirebaseConnected persistResolves).record.map
        (fun rec => rec.processedUrl) = some none := by
  refine ⟨?_, ?_, ?_⟩ <;> simp [handleFileUpload, hmime]

/-- Witness for C7: a PDF upload. -/
theorem non_image_skips_enhancement_witness :
    (handleFileUpload (some "data:application/pdf;base64,AAAA") "report.pdf"
      "application/pdf" "1" "2026-10-11T00:00:00.000Z" true (.response [⟨some "E"⟩])
      (.parsed .null) false true).enhanceInvoked = false
    ∧ (handleFileUpload (some "data:application/pdf;base64,AAAA") "report.pdf"
        "application/pdf" "1" "2026-10-11T00:00:00.000Z" true (.response [⟨some "E"⟩])
        (.parsed .null) false true).record.map
        (fun rec => rec.processedUrl) = some none :=
  ⟨(non_image_skips_enhancement "data:application/pdf;base64,AAAA" "report.pdf"
      "application/pdf" "1" "2026-10-11T00:00:00.000Z" true (.response [⟨some "E"⟩])
      (.parsed .null) false true (by decide)).1,
   (non_image_skips_enhancement "data:application/pdf;base64,AAAA" "report.pdf"
      "application/pdf" "1" "2026-10-11T00:00:00.000Z" true (.response [⟨some "E"⟩])
      (.parsed .null) false true (by decide)).2.2⟩

/-- Claim C8: in every view mode the number of findings rendered spatially by
the annotator equals the number of findings with a present box; findings
without a box are excluded from spatial rendering but retained in the
report's total findings count (total = boxed + boxless). -/
theorem spatial_rendering_matches_boxed_findings (mode : ViewMode)
    (fs : List MedicalFinding) :
    spatiallyRenderedCount mode (some fs) =
      (fs.filter (fun f => f.box_2d.isSome)).length
    ∧ fs.length =
        (fs.filter (fun f => f.box_2d.isSome)).length
          + (fs.filter (fun f => f.box_2d.isNone)).length := by
  constructor
  · have hall : ∀ i ∈ List.range (visualFindings (some fs)).length,
        (heatmapLayerRenders mode (some fs) i || boxLayerRenders mode (some fs) i) = true := by
      intro i hi
      rw [List.mem_range] at hi
      have hget : (visualFindings (some fs))[i]? =
          some ((visualFindings (some fs))[i]) := List.getElem?_eq_getElem hi
      have hmem : (visualFindings (some fs))[i] ∈ visualFindings (some fs) :=
        List.getElem_mem hi
      have hbox : ((visualFindings (some fs))[i]).box_2d.isSome = true := by
        have hmem' : (visualFindings (some fs))[i] ∈
            fs.filter (fun f => f.box_2d.isSome) := hmem
        exact (List.mem_filter.mp hmem').2
      cases mode <;> simp [heatmapLayerRenders, boxLayerRenders, hget, hbox]
    unfold spatiallyRenderedCount
    rw [List.filter_eq_self.mpr hall, List.length_range]
    rfl
  · induction fs with
    | nil => rfl
    | cons f rest ih =>
      cases hb : f.box_2d <;>
        simp [List.filter_cons, hb, Option.isSome, Option.isNone, ih] <;> omega

/-- The record of the C9 counterexample: a short `previewUrl` together with a
`processedUrl` whose data-URL payload exceeds the 800000-character stripping
threshold. -/
def largeProcessedFile : UploadedFile :=
  { id := "1"
    name := "scan.png"
    type := "image/png"
    date := "2026-10-11T00:00:00.000Z"
    previewUrl := some "data:,"
    processedUrl := some (String.mk (List.replicate 800001 'a'))
    analysisResult := none }

/-- Counterexample to C9 as stated: `addPatientReport` tests only
`previewUrl.length`, so a record whose `processedUrl` alone exceeds the
800000-character threshold is persisted with that large data intact — not
replaced by an empty placeholder. -/
theorem large_processedUrl_persisted_unstripped :
    (addPatientReportStored largeProcessedFile).processedUrl =
      some (String.mk (List.replicate 800001 'a'))
    ∧ 800000 < (String.mk (List.replicate 800001 'a')).length
    ∧ String.mk (List.replicate 800001 'a') ≠ "" := by
  refine ⟨rfl, ?_, ?_⟩
  · show 800000 < (List.replicate 800001 'a').length
    rw [List.length_replicate]
    norm_num
  · intro h
    have hlen := congrArg String.length h
    rw [show (String.mk (List.replicate 800001 'a')).length = 800001 from by
          show (List.replicate 800001 'a').length = 800001
          rw [List.length_replicate]] at hlen
    simp [String.length] at hlen

/-- Claim C9 (amended): the stripping is keyed on `previewUrl` alone — whenever
the record's `previewUrl` exceeds 800000 characters, the persisted copy
carries empty strings in both `previewUrl` and `processedUrl`; otherwise the
record is persisted unchanged (in particular a large `processedUrl` alone is
not stripped). -/
theorem addPatientReport_strips_on_large_previewUrl (file : UploadedFile) :
    (800000 < jsOptLength file.previewUrl →
      (addPatientReportStored file).previewUrl = some ""
      ∧ (addPatientReportStored file).processedUrl = some "")
    ∧ (jsOptLength file.previewUrl ≤ 800000 →
        addPatientReportStored file = file) := by
  constructor
  · intro h
    constructor <;> simp [addPatientReportStored, h]
  · intro h
    simp [addPatientReportStored, Nat.not_lt.mpr h]

/-- Witness for the amended C9: a record whose `previewUrl` exceeds the
threshold is stripped to empty placeholders. -/
theorem addPatientReport_strips_on_large_previewUrl_witness :
    (addPatientReportStored
      { largeProcessedFile with
        previewUrl := some (String.mk (List.replicate 800001 'a')) }).previewUrl = some ""
    ∧ (addPatientReportStored
        { largeProcessedFile with
          previewUrl := some (String.mk (List.replicate 800001 'a')) }).processedUrl = some "" :=
  (addPatientReport_strips_on_large_previewUrl
    { largeProcessedFile with
      previewUrl := some (String.mk (List.replicate 800001 'a')) }).1
    (by
      show 800000 < (List.replicate 800001 'a').length
      rw [List.length_replicate]
      norm_num)

end MediQuest
